import Mathlib

/-!
Shallow embedding of the Distributed-Embedded-Sensor-Grid firmware
(src/Master-Firmware.c and src/Tiles-Firmware.c) and verification of the
claims made by the specification about it.

Conventions:
- Bytes are `Nat` values; serial reads are `Int` because the Arduino
  `Serial.read()` returns `-1` when no byte is available.
- Time (`millis()`) is a `Nat`; `millis() - stateStartTime` on unsigned
  longs is modelled by truncated `Nat` subtraction (time is monotone and
  timestamps are only ever set to the current time, so no wraparound).
- The LED strip is modelled at the display-driver interface: a `Frame`
  records which fill the buffer last received (`fill_solid` /
  `fill_rainbow`); the buffer persists across render ticks exactly as the
  global `leds` array does in the source.
-/

namespace SensorGrid

/-! ### Master firmware (src/Master-Firmware.c) -/

/-- `const char keyMap[9] = {'q','w','e','a','s','d','z','x','c'};` -/
def keyMap : List Char := ['q', 'w', 'e', 'a', 's', 'd', 'z', 'x', 'c']

/-- A USB HID keyboard action emitted by the master
(`Keyboard.press` / `Keyboard.release`). -/
inductive KeyEvent where
  | press (key : Char)
  | release (key : Char)
deriving DecidableEq, Repr

/-- The key a keyboard action refers to. -/
def KeyEvent.key : KeyEvent → Char
  | .press c => c
  | .release c => c

/-- `void pollTile(int id)`: given the bus response for tile `id`
(`none` models `Wire.available()` returning 0, `some b` a received status
byte) and the `wasPressed` array, return the updated array and the emitted
keyboard events.  `bool isPressed = Wire.read();` converts any nonzero byte
to `true`. -/
def pollTile (response : Option Nat) (id : Nat) (wasPressed : List Bool) :
    List Bool × List KeyEvent :=
  match response with
  | none => (wasPressed, [])
  | some b =>
    let isPressed : Bool := b != 0
    let arrayIndex := id - 1
    if isPressed && !(wasPressed.getD arrayIndex false) then
      (wasPressed.set arrayIndex true, [.press (keyMap.getD arrayIndex ' ')])
    else if !isPressed && wasPressed.getD arrayIndex false then
      (wasPressed.set arrayIndex false, [.release (keyMap.getD arrayIndex ' ')])
    else
      (wasPressed, [])

/-- The fixed polling order of Task A:
`for (int id = 1; id <= NUM_TILES; id++) pollTile(id);`. -/
def pollIds : List Nat := [1, 2, 3, 4, 5, 6, 7, 8, 9]

/-- Sequential polling of a list of tile ids, threading the `wasPressed`
array and concatenating emitted events in order. -/
def pollAll (responses : Nat → Option Nat) :
    List Nat → List Bool → List Bool × List KeyEvent
  | [], w => (w, [])
  | id :: rest, w =>
    let r := pollTile (responses id) id w
    let r' := pollAll responses rest r.1
    (r'.1, r.2 ++ r'.2)

/-- Task A of one master `loop()` iteration: poll tiles 1..9 in order. -/
def masterCycle (responses : Nat → Option Nat) (wasPressed : List Bool) :
    List Bool × List KeyEvent :=
  pollAll responses pollIds wasPressed

/-- One I2C write transaction issued by the master
(`Wire.beginTransmission(tileID); Wire.write(command); Wire.endTransmission();`). -/
structure BusWrite where
  addr : Nat
  data : Nat
deriving DecidableEq, Repr

/-- `void sendFeedback(int tileID, char command)`: one bus write of the
command byte to the tile address. -/
def sendFeedback (tileID : Nat) (command : Nat) : List BusWrite :=
  [⟨tileID, command⟩]

/-- Arduino `Serial.read()`: consume the next byte of the input stream, or
return `-1` when none is available (it does not block). -/
def serialRead : List Nat → Int × List Nat
  | [] => (-1, [])
  | b :: rest => ((b : Int), rest)

/-- `void parsePCCommand()`: read two serial tokens, and if the first is an
ASCII digit `'1'`..`'9'` (codes 49..57) send the second byte to that tile.
The function touches neither `wasPressed` nor the keyboard, so those are
returned unchanged; `(char)cmdChar` passed to `Wire.write` is the value
reduced mod 256.  Result: (bus writes, key events, wasPressed, remaining
serial input). -/
def parsePCCommand (input : List Nat) (wasPressed : List Bool) :
    List BusWrite × List KeyEvent × List Bool × List Nat :=
  let r1 := serialRead input
  let tileChar := r1.1
  let r2 := serialRead r1.2
  let cmdChar := r2.1
  if 49 ≤ tileChar ∧ tileChar ≤ 57 then
    let targetTile := (tileChar - 48).toNat
    (sendFeedback targetTile (cmdChar % 256).toNat, [], wasPressed, r2.2)
  else
    ([], [], wasPressed, r2.2)

/-- Task B of one master `loop()` iteration:
`if (Serial.available() > 0) parsePCCommand();`. -/
def masterTaskB (input : List Nat) (wasPressed : List Bool) :
    List BusWrite × List KeyEvent × List Bool × List Nat :=
  if 0 < input.length then parsePCCommand input wasPressed
  else ([], [], wasPressed, input)

/-! ### Tile firmware (src/Tiles-Firmware.c) -/

/-- `enum TileState`. -/
inductive TState where
  | idle      -- STATE_IDLE: rainbow swirl
  | pressed   -- STATE_PRESSED: white, local feedback
  | perfect   -- STATE_PERFECT: green flash
  | great     -- STATE_GREAT: blue flash
  | miss      -- STATE_MISS: red fade
deriving DecidableEq, Repr

/-- Content of the `leds` buffer at the display-driver interface: the last
fill it received.  `fill_rainbow(leds, NUM_LEDS, millis() / 20, 7)` is
recorded by its initial hue, `fill_solid` by its color. -/
inductive Frame where
  | rainbow (initialHue : Nat)
  | solid (r g b : Nat)
deriving DecidableEq, Repr

/-- The mutable globals of a tile: `isStepped`, `currentState`,
`stateStartTime`, and the `leds` buffer. -/
structure Tile where
  isStepped : Bool
  currentState : TState
  stateStartTime : Nat
  leds : Frame
deriving DecidableEq, Repr

/-- Power-on state of the globals (`isStepped = false`,
`currentState = STATE_IDLE`, `stateStartTime = 0`, LED buffer zeroed). -/
def tileInit : Tile :=
  { isStepped := false, currentState := .idle, stateStartTime := 0,
    leds := .solid 0 0 0 }

/-- `void setAnimation(TileState newState)`: overwrite the state and stamp
the current time. -/
def setAnimation (s : Tile) (newState : TState) (now : Nat) : Tile :=
  { s with currentState := newState, stateStartTime := now }

/-- `void receiveEvent(int howMany)`: dispatch one received command byte
(`'P'` = 80, `'G'` = 71, `'M'` = 77, `'R'` = 82); any other byte falls
through the `switch` with no effect. -/
def receiveEvent (s : Tile) (command : Nat) (now : Nat) : Tile :=
  if command = 80 then setAnimation s .perfect now
  else if command = 71 then setAnimation s .great now
  else if command = 77 then setAnimation s .miss now
  else if command = 82 then setAnimation s .idle now
  else s

/-- `void requestEvent()`: `Wire.write(isStepped ? 1 : 0);` — the single
status byte returned to the master. -/
def requestEvent (s : Tile) : Nat :=
  if s.isStepped then 1 else 0

/-- `map(elapsed, 0, 500, 255, 0)` for `0 ≤ elapsed ≤ 500`: the Arduino
integer map `elapsed * (0 - 255) / 500 + 255` with C truncating division,
which for these arguments equals `255 - 255 * elapsed / 500` in `Nat`
floor division. -/
def mapBrightness (elapsed : Nat) : Nat :=
  255 - 255 * elapsed / 500

/-- `void runAnimation()`: render the current state at time `now`
(`elapsed = millis() - stateStartTime`); the timed states revert to idle
via `setAnimation(STATE_IDLE)` once their window has passed, leaving the
LED buffer untouched on the reverting tick. -/
def runAnimation (s : Tile) (now : Nat) : Tile :=
  let elapsed := now - s.stateStartTime
  match s.currentState with
  | .idle => { s with leds := .rainbow (now / 20) }
  | .pressed => { s with leds := .solid 255 255 255 }      -- CRGB::White
  | .perfect =>
      if elapsed < 300 then { s with leds := .solid 0 128 0 }   -- CRGB::Green
      else setAnimation s .idle now
  | .great =>
      if elapsed < 300 then { s with leds := .solid 0 0 255 }   -- CRGB::Blue
      else setAnimation s .idle now
  | .miss =>
      if elapsed < 500 then
        { s with leds := .solid (mapBrightness elapsed) 0 0 }   -- CRGB(b,0,0)
      else setAnimation s .idle now

/-- The threshold comparison in `loop()`:
`totalPressure > PRESSURE_THRESHOLD` with `PRESSURE_THRESHOLD = 200`,
where `totalPressure` sums the four FSR readings. -/
def senseStep (pressures : List Nat) : Bool :=
  decide (200 < pressures.foldl (· + ·) 0)

/-- One iteration of the tile `loop()` given the sensed boolean
`currentStep` at time `now`: the local-sensing arbitration followed by
`runAnimation()` (the `FastLED.show()` displays the resulting buffer). -/
def loopIter (s : Tile) (currentStep : Bool) (now : Nat) : Tile :=
  let s1 :=
    if currentStep &&
        (s.currentState == .idle || decide (500 < now - s.stateStartTime)) then
      let s' := if !s.isStepped then setAnimation s .pressed now else s
      { s' with isStepped := true }
    else if !currentStep && s.isStepped then
      let s' := { s with isStepped := false }
      if s'.currentState == .pressed then setAnimation s' .idle now else s'
    else s
  runAnimation s1 now

/-- One iteration of the tile `loop()` from the raw FSR readings. -/
def loopIterSense (s : Tile) (pressures : List Nat) (now : Nat) : Tile :=
  loopIter s (senseStep pressures) now

/-- An event in the life of a tile: either one main-loop iteration (a sensor
sample at a time) or an out-of-band received command byte. -/
inductive TileInput where
  | tick (step : Bool) (now : Nat)
  | recv (cmd : Nat) (now : Nat)
deriving DecidableEq, Repr

/-- Apply one input to the tile state. -/
def tileStep (s : Tile) : TileInput → Tile
  | .tick step now => loopIter s step now
  | .recv cmd now => receiveEvent s cmd now

/-- Run a sequence of inputs. -/
def tileRun (s : Tile) : List TileInput → Tile
  | [] => s
  | i :: rest => tileRun (tileStep s i) rest

/-- The frames pushed out by `FastLED.show()`, one per main-loop tick
(received commands do not render by themselves). -/
def renders (s : Tile) : List TileInput → List Frame
  | [] => []
  | .tick step now :: rest =>
      let s' := loopIter s step now
      s'.leds :: renders s' rest
  | .recv cmd now :: rest => renders (receiveEvent s cmd now) rest

/-! ### Claims -/

/-- C1: for every tile identity `i` in 1..9 and every poll in which the bus
exchange returns a status byte, the master emits a feedback event for `i`
iff the decoded pressed boolean differs from the stored press state for
`i`: on false-to-true it emits a press of the symbol mapped to `i` and
stores `true`, on true-to-false it emits a release and stores `false`, and
when unchanged it emits nothing and changes nothing. -/
theorem C1_edge_detection (wasPressed : List Bool) (id b : Nat)
    (h1 : 1 ≤ id) (h2 : id ≤ 9) :
    ((pollTile (some b) id wasPressed).2 ≠ [] ↔
      (b != 0) ≠ wasPressed.getD (id - 1) false) ∧
    ((b != 0) = true → wasPressed.getD (id - 1) false = false →
      pollTile (some b) id wasPressed =
        (wasPressed.set (id - 1) true, [.press (keyMap.getD (id - 1) ' ')])) ∧
    ((b != 0) = false → wasPressed.getD (id - 1) false = true →
      pollTile (some b) id wasPressed =
        (wasPressed.set (id - 1) false, [.release (keyMap.getD (id - 1) ' ')])) ∧
    ((b != 0) = wasPressed.getD (id - 1) false →
      pollTile (some b) id wasPressed = (wasPressed, [])) := by
  cases hb : (b != 0) <;> cases hw : wasPressed.getD (id - 1) false <;>
    simp only [pollTile, hb, hw] <;> simp

/-- Witness for C1 at tile 3 with status byte `0x01` on an all-false
press-state array. -/
theorem C1_edge_detection_witness :
    ((pollTile (some 1) 3 (List.replicate 9 false)).2 ≠ [] ↔
      ((1 : Nat) != 0) ≠ (List.replicate 9 false).getD (3 - 1) false) ∧
    (((1 : Nat) != 0) = true →
        (List.replicate 9 false).getD (3 - 1) false = false →
      pollTile (some 1) 3 (List.replicate 9 false) =
        ((List.replicate 9 false).set (3 - 1) true,
          [.press (keyMap.getD (3 - 1) ' ')])) ∧
    (((1 : Nat) != 0) = false →
        (List.replicate 9 false).getD (3 - 1) false = true →
      pollTile (some 1) 3 (List.replicate 9 false) =
        ((List.replicate 9 false).set (3 - 1) false,
          [.release (keyMap.getD (3 - 1) ' ')])) ∧
    (((1 : Nat) != 0) = (List.replicate 9 false).getD (3 - 1) false →
      pollTile (some 1) 3 (List.replicate 9 false) =
        (List.replicate 9 false, [])) :=
  C1_edge_detection (List.replicate 9 false) 3 1 (by decide) (by decide)

/-- C5: the claim says the feedback router does not proceed on a partial
command, reading both tokens only when available.  In the code
`Serial.read()` does not block: with the single byte `'5'` (code 53)
available, `loop()` invokes `parsePCCommand`, the second read returns
`-1`, the digit check passes, and one bus write of byte `0xFF` is issued
to tile 5 — the router acts on a partial command. -/
theorem C5_partial_command_eval :
    [(53 : Nat)].length = 1 ∧
    masterTaskB [53] (List.replicate 9 false) =
      ([⟨5, 255⟩], [], List.replicate 9 false, []) := by
  refine ⟨rfl, ?_⟩
  rfl

/-- C6: a two-token command whose digit token is outside `'1'`..`'9'`
causes no bus write, no key event, and leaves the press-state array
unchanged. -/
theorem C6_invalid_digit (b c : Nat) (rest : List Nat) (wasPressed : List Bool)
    (h : ¬ (49 ≤ b ∧ b ≤ 57)) :
    parsePCCommand (b :: c :: rest) wasPressed = ([], [], wasPressed, rest) := by
  have h' : ¬ (49 ≤ (b : Int) ∧ (b : Int) ≤ 57) := by
    rintro ⟨ha, hb⟩
    exact h ⟨by exact_mod_cast ha, by exact_mod_cast hb⟩
  simp [parsePCCommand, serialRead, h']
  intro ha hb
  exact absurd ⟨ha, hb⟩ h

/-- Witness for C6 on the spec scenario `"0X"` (bytes 48, 88). -/
theorem C6_invalid_digit_witness :
    ¬ (49 ≤ (48 : Nat) ∧ (48 : Nat) ≤ 57) ∧
    parsePCCommand [48, 88] (List.replicate 9 false) =
      ([], [], List.replicate 9 false, []) :=
  ⟨by decide, C6_invalid_digit 48 88 [] (List.replicate 9 false) (by decide)⟩

/-- C8: opcodes `'P'` (80), `'G'` (71), `'M'` (77) unconditionally move the
tile to Perfect/Great/Miss recording the current time, and `'R'` (82)
unconditionally moves it to Idle, regardless of the prior state. -/
theorem C8_remote_preemption (s : Tile) (now : Nat) :
    receiveEvent s 80 now =
      { s with currentState := .perfect, stateStartTime := now } ∧
    receiveEvent s 71 now =
      { s with currentState := .great, stateStartTime := now } ∧
    receiveEvent s 77 now =
      { s with currentState := .miss, stateStartTime := now } ∧
    receiveEvent s 82 now =
      { s with currentState := .idle, stateStartTime := now } :=
  ⟨rfl, rfl, rfl, rfl⟩

/-- C10: a two-token command with a valid digit causes exactly one bus
write of the second byte, whatever its value; in particular `"5X"` writes
`'X'` (88) to tile 5, and the tile command handler ignores 88 with no
state change. -/
theorem C10_unvalidated_opcode (b c : Nat) (rest : List Nat)
    (wasPressed : List Bool) (hb1 : 49 ≤ b) (hb2 : b ≤ 57) (hc : c < 256) :
    (parsePCCommand (b :: c :: rest) wasPressed).1 = [⟨b - 48, c⟩] ∧
    (∀ s now, receiveEvent s 88 now = s) := by
  constructor
  · have hcond : 49 ≤ (b : Int) ∧ (b : Int) ≤ 57 :=
      ⟨by exact_mod_cast hb1, by exact_mod_cast hb2⟩
    have hmod : ((c : Int) % 256).toNat = c := by
      rw [Int.emod_eq_of_lt (by positivity) (by exact_mod_cast hc)]
      exact Int.toNat_natCast c
    have htile : ((b : Int) - 48).toNat = b - 48 := by omega
    simp [parsePCCommand, serialRead, sendFeedback, hcond, hmod, htile]
  · intro s now
    rfl

/-- Witness for C10 on the command `"5X"` (bytes 53, 88). -/
theorem C10_unvalidated_opcode_witness :
    ((parsePCCommand [53, 88] (List.replicate 9 false)).1 =
      [⟨53 - 48, 88⟩] ∧ (∀ s now, receiveEvent s 88 now = s)) ∧
    (49 ≤ (53 : Nat) ∧ (53 : Nat) ≤ 57 ∧ (88 : Nat) < 256) :=
  ⟨C10_unvalidated_opcode 53 88 [] (List.replicate 9 false)
      (by decide) (by decide) (by decide),
    by decide, by decide, by decide⟩

/-- Every key event emitted by a poll of tile `id` carries the key mapped
to `id`, and a poll can only emit when a status byte was received. -/
theorem pollTile_key (response : Option Nat) (id : Nat) (w : List Bool)
    (e : KeyEvent) (he : e ∈ (pollTile response id w).2) :
    response ≠ none ∧ e.key = keyMap.getD (id - 1) ' ' := by
  cases response with
  | none => simp [pollTile] at he
  | some b =>
    refine ⟨by simp, ?_⟩
    simp only [pollTile] at he
    split at he
    · simp at he
      simp [he, KeyEvent.key]
    · split at he
      · simp at he
        simp [he, KeyEvent.key]
      · simp at he

/-- Every key event emitted while polling a list of tile ids comes from
some id in the list whose bus exchange returned data. -/
theorem pollAll_key (responses : Nat → Option Nat) (ids : List Nat)
    (w : List Bool) (e : KeyEvent)
    (he : e ∈ (pollAll responses ids w).2) :
    ∃ j ∈ ids, responses j ≠ none ∧ e.key = keyMap.getD (j - 1) ' ' := by
  induction ids generalizing w with
  | nil => simp [pollAll] at he
  | cons id rest ih =>
    simp only [pollAll, List.mem_append] at he
    rcases he with h | h
    · exact ⟨id, by simp, (pollTile_key _ _ _ _ h).1, (pollTile_key _ _ _ _ h).2⟩
    · obtain ⟨j, hj, hr, hk⟩ := ih _ h
      exact ⟨j, by simp [hj], hr, hk⟩

/-- C7: when the bus exchange for tile `i` yields no data, the poll of `i`
changes no stored press state and emits nothing; `i` is polled exactly once
per cycle (no retry within the cycle, and the fixed `pollIds` order polls
it again next cycle); and no event for the key mapped to `i` appears in the
whole cycle output. -/
theorem C7_bus_miss (responses : Nat → Option Nat) (wasPressed : List Bool)
    (i : Nat) (h1 : 1 ≤ i) (h2 : i ≤ 9) (hmiss : responses i = none) :
    pollTile (responses i) i wasPressed = (wasPressed, []) ∧
    pollIds.count i = 1 ∧
    ∀ e ∈ (masterCycle responses wasPressed).2,
      e.key ≠ keyMap.getD (i - 1) ' ' := by
  refine ⟨by rw [hmiss]; rfl, by interval_cases i <;> decide, ?_⟩
  intro e he hkey
  obtain ⟨j, hj, hr, hk⟩ := pollAll_key responses pollIds wasPressed e he
  have hji : j ≠ i := by
    rintro rfl
    exact hr hmiss
  have hne : ∀ j ∈ pollIds, ∀ i ∈ pollIds, j ≠ i →
      keyMap.getD (j - 1) ' ' ≠ keyMap.getD (i - 1) ' ' := by decide
  have hi : i ∈ pollIds := by interval_cases i <;> decide
  exact hne j hj i hi hji (hk ▸ hkey)

/-- Witness for C7: all exchanges time out, tile 3 in particular. -/
theorem C7_bus_miss_witness :
    pollTile ((fun _ => none) 3) 3 (List.replicate 9 false) =
        (List.replicate 9 false, []) ∧
    pollIds.count 3 = 1 ∧
    ∀ e ∈ (masterCycle (fun _ => none) (List.replicate 9 false)).2,
      e.key ≠ keyMap.getD (3 - 1) ' ' :=
  C7_bus_miss (fun _ => none) (List.replicate 9 false) 3
    (by decide) (by decide) rfl

/-- Two idle tile states that agree on everything except possibly the
timestamp.  `stateStartTime` is never consulted while the state is idle, so
such states are observationally equivalent. -/
def IdleAlike (s1 s2 : Tile) : Prop :=
  s1.currentState = .idle ∧ s2.currentState = .idle ∧
  s1.isStepped = s2.isStepped ∧ s1.leds = s2.leds

/-- One loop iteration either merges two idle-alike states into equal
states or keeps them idle-alike. -/
theorem loopIter_idleAlike (s1 s2 : Tile) (h : IdleAlike s1 s2)
    (step : Bool) (now : Nat) :
    loopIter s1 step now = loopIter s2 step now ∨
      IdleAlike (loopIter s1 step now) (loopIter s2 step now) := by
  obtain ⟨hc1, hc2, hstep, hleds⟩ := h
  obtain ⟨st1, cs1, ts1, l1⟩ := s1
  obtain ⟨st2, cs2, ts2, l2⟩ := s2
  simp only at hc1 hc2 hstep hleds
  subst hc1 hc2 hstep hleds
  cases step <;> cases st1 <;>
    simp [loopIter, runAnimation, setAnimation, IdleAlike]

/-- A received command either merges two idle-alike states into equal
states or keeps them idle-alike. -/
theorem receiveEvent_idleAlike (s1 s2 : Tile) (h : IdleAlike s1 s2)
    (cmd : Nat) (now : Nat) :
    receiveEvent s1 cmd now = receiveEvent s2 cmd now ∨
      IdleAlike (receiveEvent s1 cmd now) (receiveEvent s2 cmd now) := by
  obtain ⟨hc1, hc2, hstep, hleds⟩ := h
  obtain ⟨st1, cs1, ts1, l1⟩ := s1
  obtain ⟨st2, cs2, ts2, l2⟩ := s2
  simp only at hc1 hc2 hstep hleds
  subst hc1 hc2 hstep hleds
  unfold receiveEvent
  split
  · left; rfl
  · split
    · left; rfl
    · split
      · left; rfl
      · split
        · left; rfl
        · right; exact ⟨rfl, rfl, rfl, rfl⟩

/-- Idle-alike states render identically forever. -/
theorem renders_idleAlike (ins : List TileInput) :
    ∀ s1 s2, IdleAlike s1 s2 → renders s1 ins = renders s2 ins := by
  induction ins with
  | nil => intro s1 s2 _; rfl
  | cons i rest ih =>
    intro s1 s2 h
    cases i with
    | tick step now =>
      rcases loopIter_idleAlike s1 s2 h step now with heq | halike
      · simp [renders, heq]
      · simp only [renders]
        rw [halike.2.2.2, ih _ _ halike]
    | recv cmd now =>
      rcases receiveEvent_idleAlike s1 s2 h cmd now with heq | halike
      · simp [renders, heq]
      · simp only [renders]
        exact ih _ _ halike

/-- C9: receiving opcode `'R'` (82) while the state is already Idle leaves
the state Idle, and every subsequent input sequence renders exactly the
frames it would have rendered had the Reset not been received. -/
theorem C9_reset_idempotent (s : Tile) (now : Nat) (ins : List TileInput)
    (h : s.currentState = .idle) :
    (receiveEvent s 82 now).currentState = .idle ∧
    renders (receiveEvent s 82 now) ins = renders s ins := by
  have halike : IdleAlike (receiveEvent s 82 now) s := ⟨rfl, h, rfl, rfl⟩
  exact ⟨rfl, renders_idleAlike ins _ _ halike⟩

/-- Witness for C9: reset an idle tile at time 5, then run one tick. -/
theorem C9_reset_idempotent_witness :
    (receiveEvent tileInit 82 5).currentState = TState.idle ∧
    renders (receiveEvent tileInit 82 5) [TileInput.tick true 100] =
      renders tileInit [TileInput.tick true 100] :=
  C9_reset_idempotent tileInit 5 [TileInput.tick true 100] rfl

/-- The 60 FPS main-loop timeline for a tile put into Perfect at time 0:
ticks every 16 ms with the sensor unstepped, and a sensor rising edge at
the tick at 352 ms (elapsed 352 ≤ 500 since the Perfect command). -/
def perfectThenStepTrace : List TileInput :=
  [.tick false 16, .tick false 32, .tick false 48, .tick false 64,
   .tick false 80, .tick false 96, .tick false 112, .tick false 128,
   .tick false 144, .tick false 160, .tick false 176, .tick false 192,
   .tick false 208, .tick false 224, .tick false 240, .tick false 256,
   .tick false 272, .tick false 288, .tick false 304, .tick false 320,
   .tick false 336, .tick true 352]

/-- C2 counterexample: a tile enters Perfect at time 0 and receives no
further bus commands; running the ~60 FPS loop, a sensor rising edge at
elapsed time 352 ms (≤ 500 ms after the command, past the 300 ms display
window) ends with the tile in LocalPressed — the claim says such an edge
must not transition the tile to LocalPressed.  The Perfect state had
already auto-reverted to Idle at the 304 ms render tick. -/
theorem C2_counterexample :
    (tileRun (receiveEvent tileInit 80 0) perfectThenStepTrace).currentState =
      TState.pressed ∧
    (tileRun (receiveEvent tileInit 80 0)
        (perfectThenStepTrace.take 19)).currentState = TState.idle ∧
    (352 : Nat) ≤ 500 := by
  refine ⟨by decide, by decide, by decide⟩

/-- Render of an idle tile: the rainbow keyed off the wall clock. -/
theorem runAnimation_idle (s : Tile) (now : Nat) (h : s.currentState = .idle) :
    runAnimation s now = { s with leds := .rainbow (now / 20) } := by
  simp [runAnimation, h]

/-- Render of a Perfect tile: green inside the 300 ms window, revert to
idle (with a fresh timestamp, LED buffer untouched) at or after it. -/
theorem runAnimation_perfect (s : Tile) (now : Nat)
    (h : s.currentState = .perfect) :
    runAnimation s now =
      if now - s.stateStartTime < 300 then { s with leds := .solid 0 128 0 }
      else setAnimation s .idle now := by
  simp [runAnimation, h]

/-- Render of a Miss tile: decaying red inside the 500 ms window, revert
to idle (with a fresh timestamp, LED buffer untouched) at or after it. -/
theorem runAnimation_miss (s : Tile) (now : Nat) (h : s.currentState = .miss) :
    runAnimation s now =
      if now - s.stateStartTime < 500 then
        { s with leds := .solid (mapBrightness (now - s.stateStartTime)) 0 0 }
      else setAnimation s .idle now := by
  simp [runAnimation, h]

/-- `runAnimation` never touches `isStepped`. -/
theorem runAnimation_isStepped (s : Tile) (now : Nat) :
    (runAnimation s now).isStepped = s.isStepped := by
  simp only [runAnimation, setAnimation]
  split <;> first | rfl | (split <;> rfl)

/-- A loop iteration with the sensor unstepped and the flag already clear
only renders. -/
theorem loopIter_nostep (s : Tile) (now : Nat) (hstep : s.isStepped = false) :
    loopIter s false now = runAnimation s now := by
  simp [loopIter, hstep]

/-- A loop iteration with a stepped sensor while a remote animation is
inside its 500 ms grace window suppresses the edge and only renders. -/
theorem loopIter_suppressed (s : Tile) (now : Nat)
    (hne : s.currentState ≠ .idle) (hgrace : now - s.stateStartTime ≤ 500) :
    loopIter s true now = runAnimation s now := by
  have h1 : (s.currentState == TState.idle) = false := by
    simp [hne]
  have h2 : decide (500 < now - s.stateStartTime) = false := by
    simp only [decide_eq_false_iff_not]
    omega
  simp [loopIter, h1, h2]

/-- A loop iteration with a rising edge that is allowed (idle state, or
grace window over) moves the tile to LocalPressed at the current time and
renders white. -/
theorem loopIter_rising (s : Tile) (now : Nat) (hstep : s.isStepped = false)
    (h : s.currentState = .idle ∨ 500 < now - s.stateStartTime) :
    loopIter s true now =
      { s with isStepped := true, currentState := .pressed,
               stateStartTime := now, leds := .solid 255 255 255 } := by
  have hcond : (s.currentState == TState.idle
      || decide (500 < now - s.stateStartTime)) = true := by
    rcases h with h | h
    · simp [h]
    · simp [h]
  simp [loopIter, hcond, hstep, runAnimation, setAnimation]

/-- C2 (amended): within a single loop iteration, a sensor rising edge is
suppressed while the state is still Perfect with elapsed ≤ 500 ms and
yields LocalPressed when elapsed > 500 ms; but any render tick with
elapsed in [300 ms, 500 ms] reverts Perfect to Idle with a fresh
timestamp, after which a later rising edge transitions to LocalPressed
immediately — so under the ~60 FPS loop the suppression effectively lasts
only until the 300 ms auto-revert (an edge at 100 ms is suppressed, one at
350 ms is not). -/
theorem C2_amended (s : Tile) (now : Nat)
    (hstate : s.currentState = .perfect) (hstep : s.isStepped = false) :
    (now - s.stateStartTime ≤ 500 →
      (loopIter s true now).currentState ≠ .pressed ∧
      (loopIter s true now).isStepped = false) ∧
    (500 < now - s.stateStartTime →
      (loopIter s true now).currentState = .pressed ∧
      (loopIter s true now).isStepped = true) ∧
    (300 ≤ now - s.stateStartTime → now - s.stateStartTime ≤ 500 →
      ∀ step, (loopIter s step now).currentState = .idle ∧
        (loopIter s step now).stateStartTime = now) := by
  refine ⟨fun h => ?_, fun h => ?_, fun h1 h2 step => ?_⟩
  · rw [loopIter_suppressed s now (by simp [hstate]) h,
        runAnimation_perfect s now hstate]
    split
    · simp [hstate, hstep]
    · simp [setAnimation, hstep]
  · rw [loopIter_rising s now hstep (Or.inr h)]
    exact ⟨rfl, rfl⟩
  · have hrev : runAnimation s now = setAnimation s .idle now := by
      rw [runAnimation_perfect s now hstate, if_neg (by omega)]
    cases step
    · rw [loopIter_nostep s now hstep, hrev]
      exact ⟨rfl, rfl⟩
    · rw [loopIter_suppressed s now (by simp [hstate]) h2, hrev]
      exact ⟨rfl, rfl⟩

/-- Witness for C2: a tile in Perfect since time 0, probed at 100 ms
(suppressed), at 501 ms (rising edge goes through), and at 350 ms (revert
to idle). -/
theorem C2_amended_witness :
    let s : Tile := ⟨false, .perfect, 0, .solid 0 128 0⟩
    ((loopIter s true 100).currentState ≠ TState.pressed ∧
      (loopIter s true 100).isStepped = false) ∧
    ((loopIter s true 501).currentState = TState.pressed ∧
      (loopIter s true 501).isStepped = true) ∧
    ((loopIter s false 350).currentState = TState.idle ∧
      (loopIter s false 350).stateStartTime = 350) :=
  ⟨(C2_amended ⟨false, .perfect, 0, .solid 0 128 0⟩ 100 rfl rfl).1 (by decide),
   (C2_amended ⟨false, .perfect, 0, .solid 0 128 0⟩ 501 rfl rfl).2.1 (by decide),
   (C2_amended ⟨false, .perfect, 0, .solid 0 128 0⟩ 350 rfl rfl).2.2
     (by decide) (by decide) false⟩

/-- The 60 FPS main-loop timeline for a tile put into Miss at time 0:
render ticks every 16 ms with the sensor unstepped, through 512 ms. -/
def missTrace : List TileInput :=
  [.tick false 16, .tick false 32, .tick false 48, .tick false 64,
   .tick false 80, .tick false 96, .tick false 112, .tick false 128,
   .tick false 144, .tick false 160, .tick false 176, .tick false 192,
   .tick false 208, .tick false 224, .tick false 240, .tick false 256,
   .tick false 272, .tick false 288, .tick false 304, .tick false 320,
   .tick false 336, .tick false 352, .tick false 368, .tick false 384,
   .tick false 400, .tick false 416, .tick false 432, .tick false 448,
   .tick false 464, .tick false 480, .tick false 496, .tick false 512]

set_option maxRecDepth 4096 in
/-- C3 counterexample: a tile enters Miss at time 0 and, running the
~60 FPS loop with no further triggers, at the render at 512 ms
(≥ 500 ms after t0) the state has reverted to Idle but the displayed
buffer is the stale dim-red frame `solid 3 0 0` from the 496 ms render —
not fully black as the claim requires, and the next renders show the Idle
rainbow, also not black. -/
theorem C3_counterexample :
    (500 : Nat) ≤ 512 ∧
    (tileRun (receiveEvent tileInit 77 0) missTrace).currentState =
      TState.idle ∧
    (tileRun (receiveEvent tileInit 77 0) missTrace).leds =
      Frame.solid 3 0 0 ∧
    Frame.solid 3 0 0 ≠ Frame.solid 0 0 0 :=
  ⟨by decide, by decide, by decide, by decide⟩

/-- C3 (amended): while in Miss the render at elapsed `e < 500` ms is red
with brightness `255 - 255*e/500` — linear decay from 255, about 50%
(namely 128) at 250 ms, and never 0; at any render with elapsed ≥ 500 ms
the state reverts to Idle with a fresh timestamp and the LED buffer is
left at its previous content, and renders while Idle show the rainbow —
the fully black frame is never rendered. -/
theorem C3_amended (s : Tile) (now : Nat) (hstate : s.currentState = .miss) :
    (now - s.stateStartTime < 500 →
      runAnimation s now =
        { s with leds := .solid (mapBrightness (now - s.stateStartTime)) 0 0 }) ∧
    (500 ≤ now - s.stateStartTime →
      (runAnimation s now).currentState = .idle ∧
      (runAnimation s now).leds = s.leds ∧
      (runAnimation s now).stateStartTime = now) ∧
    mapBrightness 0 = 255 ∧
    mapBrightness 250 = 128 ∧
    (∀ e, e < 500 → 1 ≤ mapBrightness e) ∧
    (∀ s2 : Tile, s2.currentState = .idle →
      (runAnimation s2 now).leds = .rainbow (now / 20)) := by
  refine ⟨fun h => ?_, fun h => ?_, by decide, by decide,
    fun e he => ?_, fun s2 h2 => ?_⟩
  · rw [runAnimation_miss s now hstate, if_pos h]
  · rw [runAnimation_miss s now hstate, if_neg (by omega)]
    exact ⟨rfl, rfl, rfl⟩
  · have h1 : 255 * e / 500 ≤ 255 * 499 / 500 :=
      Nat.div_le_div_right (by omega)
    have h2 : 255 * 499 / 500 = 254 := by norm_num
    simp only [mapBrightness]
    omega
  · rw [runAnimation_idle s2 now h2]

/-- Witness for C3: a tile in Miss since time 0, rendered at 250 ms
(half brightness) and at 500 ms (revert, stale buffer). -/
theorem C3_amended_witness :
    (runAnimation ⟨false, .miss, 0, .solid 255 0 0⟩ 250 =
      { isStepped := false, currentState := .miss, stateStartTime := 0,
        leds := .solid (mapBrightness 250) 0 0 }) ∧
    ((runAnimation ⟨false, .miss, 0, .solid 255 0 0⟩ 500).currentState =
        TState.idle ∧
      (runAnimation ⟨false, .miss, 0, .solid 255 0 0⟩ 500).leds =
        Frame.solid 255 0 0 ∧
      (runAnimation ⟨false, .miss, 0, .solid 255 0 0⟩ 500).stateStartTime =
        500) :=
  ⟨(C3_amended ⟨false, .miss, 0, .solid 255 0 0⟩ 250 rfl).1 (by decide),
   (C3_amended ⟨false, .miss, 0, .solid 255 0 0⟩ 500 rfl).2.1 (by decide)⟩

/-- A loop iteration with a stepped sensor in an allowed situation always
leaves the pressed flag set. -/
theorem loopIter_allowed_isStepped (s : Tile) (now : Nat)
    (h : s.currentState = .idle ∨ 500 < now - s.stateStartTime) :
    (loopIter s true now).isStepped = true := by
  have hcond : (s.currentState == TState.idle
      || decide (500 < now - s.stateStartTime)) = true := by
    rcases h with h | h <;> simp [h]
  simp only [loopIter]
  rw [runAnimation_isStepped]
  simp [hcond, setAnimation]

/-- A loop iteration with the sensor unstepped always leaves the pressed
flag clear. -/
theorem loopIter_unstepped_isStepped (s : Tile) (now : Nat) :
    (loopIter s false now).isStepped = false := by
  simp only [loopIter]
  rw [runAnimation_isStepped]
  cases h : s.isStepped <;> simp [h, setAnimation] <;> split <;> rfl

/-- C4 counterexample: an idle, unstepped tile receives opcode `'P'` at
time 0; at the loop iteration at 16 ms the four FSR channels sum to 201,
so the threshold comparison reads stepped, yet the suppressed rising edge
leaves `isStepped` false and a status request replies `0x00` — the status
byte does not encode the locally-sensed threshold boolean while a
remote-triggered animation is active. -/
theorem C4_counterexample :
    senseStep [201, 0, 0, 0] = true ∧
    (receiveEvent tileInit 80 0).currentState = TState.perfect ∧
    requestEvent
      (loopIterSense (receiveEvent tileInit 80 0) [201, 0, 0, 0] 16) = 0 :=
  ⟨rfl, rfl, rfl⟩

/-- C4 (amended): the reply to a status request is exactly one byte, 0 or
1, encoding the `isStepped` flag; after a loop iteration the flag equals
the sensed threshold boolean whenever the tile is Idle or the 500 ms
grace window of a remote animation has elapsed, but while a remote
animation is inside its grace window a tile whose flag is clear keeps
replying `0x00` even when the sensed boolean reads stepped. -/
theorem C4_amended (s : Tile) (step : Bool) (now : Nat) :
    (requestEvent s = 0 ∨ requestEvent s = 1) ∧
    ((s.currentState = .idle ∨ 500 < now - s.stateStartTime) →
      requestEvent (loopIter s step now) = if step then 1 else 0) ∧
    (s.currentState ≠ .idle → now - s.stateStartTime ≤ 500 →
      s.isStepped = false →
      requestEvent (loopIter s step now) = 0) := by
  refine ⟨?_, fun h => ?_, fun hne hgrace hstep => ?_⟩
  · unfold requestEvent
    split
    · right; rfl
    · left; rfl
  · cases step
    · simp [requestEvent, loopIter_unstepped_isStepped]
    · simp [requestEvent, loopIter_allowed_isStepped s now h]
  · cases step
    · simp [requestEvent, loopIter_unstepped_isStepped]
    · rw [loopIter_suppressed s now hne hgrace]
      simp [requestEvent, runAnimation_isStepped, hstep]

/-- Witness for C4: a fresh press during the grace window of a Perfect
animation replies 0, while a press on an idle tile replies 1. -/
theorem C4_amended_witness :
    requestEvent (loopIter ⟨false, .perfect, 0, .solid 0 128 0⟩ true 16) = 0 ∧
    requestEvent (loopIter tileInit true 10) = 1 := by
  constructor
  · exact (C4_amended ⟨false, .perfect, 0, .solid 0 128 0⟩ true 16).2.2
      (by decide) (by decide) rfl
  · have h := (C4_amended tileInit true 10).2.1 (Or.inl rfl)
    simpa using h

end SensorGrid
